import Mathlib

/-!
Verification of the layered error-code decoding subsystem and the
hierarchy option parsing of tpm2.0-tools, against a shallow embedding.

The error-module interface is given by src/lib/tpm2_error.h; where only
the declaration is available in the excerpt, the definition is modelled
from the specification (each such definition says so in its doc comment).
The hierarchy parsing and free operations are embedded directly from
src/lib/tpm2_hierarchy.c.
-/

/-- From src/lib/tpm2_error.h line 18: mask for the error bits of a
tpm2 compliant return code. -/
def TPM2_ERROR_TSS2_RC_ERROR_MASK : Nat := 0xFFFF

/-- From src/lib/tpm2_error.h lines 28-30: retrieves the error bits
from a TSS2_RC, computed as rc AND 0xFFFF on the 32-bit code. -/
def tpm2_error_get (rc : Nat) : Nat :=
  rc &&& TPM2_ERROR_TSS2_RC_ERROR_MASK

/-- Layer field of a status code: the 8-bit field above the low 16
error bits (shift 16, mask 0xFF, per the TSS2 layered rc layout). -/
def layerOf (rc : Nat) : Nat :=
  rc / 2 ^ 16 % 2 ^ 8

/-- Modelled from the spec: a LayerEntry of the layer registry holds a
friendly short name and an optional custom decoder from error bits to
an optional message string. -/
structure LayerEntry where
  name : String
  handler : Option (Nat → Option String)

/-- Modelled from the spec: the layer registry maps layer ids to
optional entries; unregistered ids have no entry. -/
def Registry : Type := Nat → Option LayerEntry

/-- The empty registry, used as a concrete test registry. -/
def regEmpty : Registry := fun _ => none

/-- Modelled from the spec: the reserved layer ids that callers may not
register: device 0, system 8, marshaling 9, transport 10 (also listed
in the doc comment of tpm2_error_set_handler in src/lib/tpm2_error.h). -/
def reservedLayer (layer : Nat) : Bool :=
  layer == 0 || layer == 8 || layer == 9 || layer == 10

/-- Modelled from the spec: tpm2_error_set_handler (declared in
src/lib/tpm2_error.h lines 65-66, implementation not in the excerpt).
A NULL handler unregisters and always succeeds; a non-NULL handler
fails on a reserved layer id or a name of length 0 or greater than 4,
mutating nothing; otherwise it replaces the entry for that id. -/
def tpm2_error_set_handler (reg : Registry) (layer : Nat) (name : String)
    (handler : Option (Nat → Option String)) : Bool × Registry :=
  match handler with
  | none => (true, fun l => if l == layer then none else reg l)
  | some h =>
    if reservedLayer layer then
      (false, reg)
    else if name.length == 0 || name.length > 4 then
      (false, reg)
    else
      (true, fun l => if l == layer then some ⟨name, some h⟩ else reg l)

/-- Modelled from the spec: the fixed format-1 description table of the
device layer, keyed by the low 6 bits of the error bits; a sub-code with
no entry of its own renders the generic sentinel entry of the table,
never a decode failure. The table content is a design constant taken
from the TPM 2.0 structures reference; it is abbreviated here. -/
def fmt1_err_strs (n : Nat) : String :=
  match n with
  | 0x01 => "asymmetric algorithm not supported or not correct"
  | 0x02 => "inconsistent attributes"
  | 0x03 => "hash algorithm not supported or not appropriate"
  | 0x04 => "value is out of range or is not correct for the context"
  | 0x05 => "hierarchy is not enabled or is not correct for the use"
  | _ => "value is out of range or is not correct for the context"

/-- The component index field of a format-1 code: bits 8-11 when the
parameter bit (bit 6) is set, otherwise bits 8-10. -/
def fmt1_index (err : Nat) : Nat :=
  if err.testBit 6 then err / 2 ^ 8 % 2 ^ 4 else err / 2 ^ 8 % 2 ^ 3

/-- Modelled from the spec: the format-1 branch of the device-layer
built-in decoder. The component kind is parameter (bit 6), session
(bit 11) or handle; the component index renders as unk when the index
field is 0 and as the decimal numeral otherwise, composed as
kind(index):description. -/
def tpm2_rc_fmt1 (err : Nat) : String :=
  let desc := fmt1_err_strs (err % 2 ^ 6)
  if err.testBit 6 then
    let n := err / 2 ^ 8 % 2 ^ 4
    "parameter(" ++ (if n = 0 then "unk" else Nat.repr n) ++ "):" ++ desc
  else if err.testBit 11 then
    let n := err / 2 ^ 8 % 2 ^ 3
    "session(" ++ (if n = 0 then "unk" else Nat.repr n) ++ "):" ++ desc
  else
    let n := err / 2 ^ 8 % 2 ^ 3
    "handle(" ++ (if n = 0 then "unk" else Nat.repr n) ++ "):" ++ desc

/-- Modelled from the spec: the fixed format-0 description table for the
error severity class, indexed by the code index; gaps within range hold
a placeholder, an out-of-range index has no entry. Abbreviated design
constant. -/
def fmt0_err_strs : List String :=
  ["initialization failed", "unknown error code", "bad tag",
   "unknown error code", "unknown error code"]

/-- Modelled from the spec: the fixed format-0 description table for the
warning severity class. Abbreviated design constant. -/
def fmt0_warn_strs : List String :=
  ["gap for context ID is too large", "out of memory for object contexts",
   "unknown warning code"]

/-- Modelled from the spec: the format-0 branch of the device-layer
built-in decoder. Bit 11 selects the warning class over the error
class, bit 8 selects the version tag, the low 7 bits index the
per-class description table; an out-of-range index is a decode failure
(none), which the caller renders as the generic hex fallback. -/
def tpm2_rc_fmt0 (err : Nat) : Option String :=
  let severity := if err.testBit 11 then "warn" else "error"
  let version := if err.testBit 8 then "2.0" else "1.2"
  let tbl := if err.testBit 11 then fmt0_warn_strs else fmt0_err_strs
  match tbl.get? (err % 2 ^ 7) with
  | some d => some (severity ++ "(" ++ version ++ "): " ++ d)
  | none => none

/-- Modelled from the spec: the device-layer built-in decoder. Bit 7 of
the error bits selects format 1; otherwise format 0 applies. -/
def tpm2_ehandler (err : Nat) : Option String :=
  if err.testBit 7 then some (tpm2_rc_fmt1 err) else tpm2_rc_fmt0 err

/-- Hexadecimal rendering of the error bits used by the generic
fallback, as 0x followed by the hex digits. -/
def hexStr (n : Nat) : String :=
  "0x" ++ String.mk (Nat.toDigits 16 n)

/-- The layer-name component of a decoded string: the friendly name
when an entry exists, otherwise the decimal layer id. -/
def layerName (reg : Registry) (layer : Nat) : String :=
  match reg layer with
  | some e => e.name
  | none => Nat.repr layer

/-- Modelled from the spec: the message component of decode. Error
bits 0 short-circuit to success; the device layer 0 consults its
built-in decoder first; otherwise a registered decoder is invoked and
its answer used when present; in every remaining case the generic hex
fallback renders the error bits. -/
def tpm2_error_msg (reg : Registry) (rc : Nat) : String :=
  let layer := layerOf rc
  let err := tpm2_error_get rc
  if err = 0 then "success"
  else if layer = 0 then
    match tpm2_ehandler err with
    | some s => s
    | none => hexStr err
  else
    match reg layer with
    | some e =>
      match e.handler with
      | some h =>
        match h err with
        | some s => s
        | none => hexStr err
      | none => hexStr err
    | none => hexStr err

/-- Modelled from the spec: tpm2_error_str (declared in
src/lib/tpm2_error.h line 109, implementation not in the excerpt):
composes the layer-name component and the message component separated
by a colon. -/
def tpm2_error_str (reg : Registry) (rc : Nat) : String :=
  layerName reg (layerOf rc) ++ ":" ++ tpm2_error_msg reg rc

/-- From src/lib/tpm2_error.h lines 112-122: the tool_rc outcome
enumeration, in declaration order; the C enum assigns consecutive
ordinals starting at 0. -/
inductive tool_rc where
  | tool_rc_success
  | tool_rc_general_error
  | tool_rc_option_error
  | tool_rc_auth_error
  | tool_rc_tcti_error
  | tool_rc_unsupported
deriving DecidableEq

/-- The C ordinal of a tool_rc value, following the declaration order of
the enum in src/lib/tpm2_error.h. -/
def tool_rc.toNat : tool_rc → Nat
  | .tool_rc_success => 0
  | .tool_rc_general_error => 1
  | .tool_rc_option_error => 2
  | .tool_rc_auth_error => 3
  | .tool_rc_tcti_error => 4
  | .tool_rc_unsupported => 5

/-- Modelled from the spec: representative error-bit values classified
as option errors. The concrete membership of each class is a design
constant the spec does not restate. -/
def option_error_bits : List Nat := [0x1D5]

/-- Modelled from the spec: representative error-bit values classified
as authorization errors. -/
def auth_error_bits : List Nat := [0x98E, 0x99D]

/-- Modelled from the spec: representative error-bit values classified
as transport errors. -/
def tcti_error_bits : List Nat := [0xA001]

/-- Modelled from the spec: representative error-bit values classified
as unsupported operations. -/
def unsupported_bits : List Nat := [0xB003]

/-- Modelled from the spec: tool_rc_from_tpm (declared in
src/lib/tpm2_error.h line 134, implementation not in the excerpt):
flattens the rc to its error bits and maps them through a fixed ordered
rule set; zero error bits map to success and anything unrecognized maps
to the general error outcome. -/
def tool_rc_from_tpm (rc : Nat) : tool_rc :=
  let err := tpm2_error_get rc
  if err = 0 then .tool_rc_success
  else if err ∈ option_error_bits then .tool_rc_option_error
  else if err ∈ auth_error_bits then .tool_rc_auth_error
  else if err ∈ tcti_error_bits then .tool_rc_tcti_error
  else if err ∈ unsupported_bits then .tool_rc_unsupported
  else .tool_rc_general_error

/-- TPM2_RH_OWNER, a protocol constant from the external tss2 headers. -/
def TPM2_RH_OWNER : Nat := 0x40000001

/-- TPM2_RH_NULL, a protocol constant from the external tss2 headers. -/
def TPM2_RH_NULL : Nat := 0x40000007

/-- TPM2_RH_LOCKOUT, a protocol constant from the external tss2
headers. -/
def TPM2_RH_LOCKOUT : Nat := 0x4000000A

/-- TPM2_RH_ENDORSEMENT, a protocol constant from the external tss2
headers. -/
def TPM2_RH_ENDORSEMENT : Nat := 0x4000000B

/-- TPM2_RH_PLATFORM, a protocol constant from the external tss2
headers. -/
def TPM2_RH_PLATFORM : Nat := 0x4000000C

/-- Modelled from the spec: tpm2_hierarchy_flags (defined in
tpm2_hierarchy.h, which is not in the excerpt) is the bitmask of
hierarchies a command supports; it is modelled as one Boolean per flag
bit, in the order the flags are tested in tpm2_hierarchy_from_optarg. -/
structure tpm2_hierarchy_flags where
  flags_o : Bool
  flags_p : Bool
  flags_e : Bool
  flags_n : Bool
  flags_l : Bool

/-- The flags value with every hierarchy permitted. -/
def allHierarchyFlags : tpm2_hierarchy_flags :=
  ⟨true, true, true, true, true⟩

/-- Embedding of tpm2_hierarchy_from_optarg from
src/lib/tpm2_hierarchy.c lines 32-110. C strings are lists of
characters; strncmp of value against a token over the length of value
is the test that value is a prefix of that token. The external numeric
parser tpm2_util_string_to_uint32 (from tpm2_util.c, not in the
excerpt) is a parameter; the out parameter is threaded as an explicit
initial value and result. -/
def tpm2_hierarchy_from_optarg (string_to_uint32 : List Char → Option Nat)
    (value : List Char) (hierarchy : Nat) (flags : tpm2_hierarchy_flags) :
    Bool × Nat :=
  if value = [] then (false, hierarchy)
  else
    let h0 : Nat := 0
    let h1 := if value.isPrefixOf ['o', 'w', 'n', 'e', 'r']
      then TPM2_RH_OWNER else h0
    let h2 := if value.isPrefixOf ['p', 'l', 'a', 't', 'f', 'o', 'r', 'm']
      then TPM2_RH_PLATFORM else h1
    let h3 := if value.isPrefixOf
        ['e', 'n', 'd', 'o', 'r', 's', 'e', 'm', 'e', 'n', 't']
      then TPM2_RH_ENDORSEMENT else h2
    let h4 := if value.isPrefixOf ['n', 'u', 'l', 'l']
      then TPM2_RH_NULL else h3
    let h5 := if value.isPrefixOf ['l', 'o', 'c', 'k', 'o', 'u', 't']
      then TPM2_RH_LOCKOUT else h4
    let parsed : Option Nat :=
      if h5 = 0 then string_to_uint32 value else some h5
    match parsed with
    | none => (false, h5)
    | some h =>
      if !flags.flags_o && (h == TPM2_RH_OWNER) then (false, h)
      else if !flags.flags_p && (h == TPM2_RH_PLATFORM) then (false, h)
      else if !flags.flags_e && (h == TPM2_RH_ENDORSEMENT) then (false, h)
      else if !flags.flags_n && (h == TPM2_RH_NULL) then (false, h)
      else if !flags.flags_l && (h == TPM2_RH_LOCKOUT) then (false, h)
      else (true, h)

/-- The out section of a tpm2_hierarchy_pdata, keeping the four
heap-allocated output pointers freed by tpm2_hierarchy_pdata_free;
a pointer is none when NULL, some p when it holds allocation p. -/
structure tpm2_hierarchy_pdata_out where
  creation_data : Option Nat
  creation_ticket : Option Nat
  hash : Option Nat
  public : Option Nat
deriving DecidableEq

/-- Embedding of tpm2_hierarchy_pdata_free from
src/lib/tpm2_hierarchy.c lines 136-146: frees each non-NULL pointer and
sets it to NULL. The returned list records which allocations were
freed by the call (free of NULL frees nothing). -/
def tpm2_hierarchy_pdata_free (objdata : tpm2_hierarchy_pdata_out) :
    tpm2_hierarchy_pdata_out × List Nat :=
  (⟨none, none, none, none⟩,
    objdata.creation_data.toList ++ objdata.creation_ticket.toList ++
      objdata.hash.toList ++ objdata.public.toList)
/-- Claim C1: decode is total: for every status code and registry state,
tpm2_error_str returns a non-empty string. -/
theorem tpm2_error_str_total (reg : Registry) (rc : Nat) :
    0 < (tpm2_error_str reg rc).length := by
  unfold tpm2_error_str
  rw [String.length_append, String.length_append]
  have h : (":" : String).length = 1 := rfl
  omega

/-- Claim C7: the error-bits extraction is the low 16 bits: for every
status code rc, tpm2_error_get rc equals rc modulo 2 to the 16. -/
theorem tpm2_error_get_low16 (rc : Nat) :
    tpm2_error_get rc = rc % 2 ^ 16 := by
  have h := Nat.and_pow_two_sub_one_eq_mod rc 16
  norm_num at h
  simpa [tpm2_error_get, TPM2_ERROR_TSS2_RC_ERROR_MASK] using h

/-- Claim C6: the tool_rc outcome enumeration has the stable ordinals
0 success, 1 general error, 2 option error, 3 auth error, 4 tcti error,
5 unsupported, and tool_rc_from_tpm only returns these six values. -/
theorem tool_rc_ordinals :
    (tool_rc.toNat .tool_rc_success = 0 ∧
     tool_rc.toNat .tool_rc_general_error = 1 ∧
     tool_rc.toNat .tool_rc_option_error = 2 ∧
     tool_rc.toNat .tool_rc_auth_error = 3 ∧
     tool_rc.toNat .tool_rc_tcti_error = 4 ∧
     tool_rc.toNat .tool_rc_unsupported = 5) ∧
    ∀ rc : Nat,
      tool_rc_from_tpm rc = .tool_rc_success ∨
      tool_rc_from_tpm rc = .tool_rc_general_error ∨
      tool_rc_from_tpm rc = .tool_rc_option_error ∨
      tool_rc_from_tpm rc = .tool_rc_auth_error ∨
      tool_rc_from_tpm rc = .tool_rc_tcti_error ∨
      tool_rc_from_tpm rc = .tool_rc_unsupported := by
  refine ⟨⟨rfl, rfl, rfl, rfl, rfl, rfl⟩, fun rc => ?_⟩
  cases h : tool_rc_from_tpm rc <;> simp

/-- Claim C10: tpm2_hierarchy_pdata_free leaves all four output
pointers NULL, and a second call on the result frees nothing and
leaves the object in the same all-NULL state. -/
theorem tpm2_hierarchy_pdata_free_idempotent (o : tpm2_hierarchy_pdata_out) :
    ((tpm2_hierarchy_pdata_free o).1.creation_data = none ∧
     (tpm2_hierarchy_pdata_free o).1.creation_ticket = none ∧
     (tpm2_hierarchy_pdata_free o).1.hash = none ∧
     (tpm2_hierarchy_pdata_free o).1.public = none) ∧
    tpm2_hierarchy_pdata_free (tpm2_hierarchy_pdata_free o).1 =
      ((tpm2_hierarchy_pdata_free o).1, []) := by
  simp [tpm2_hierarchy_pdata_free]

/-- Claim C3: zero error bits always render the message component
success, for every registry state, with the layer-name prefix computed
normally. -/
theorem tpm2_error_str_success_shortcircuit (reg : Registry) (rc : Nat)
    (h : tpm2_error_get rc = 0) :
    tpm2_error_str reg rc = layerName reg (layerOf rc) ++ ":success" := by
  unfold tpm2_error_str tpm2_error_msg
  simp [h]
  rw [String.append_assoc]
  rfl

/-- Witness for claim C3 at status code 0x40000 and the empty registry:
layer 4, zero error bits, rendering 4:success. -/
theorem tpm2_error_str_success_shortcircuit_witness :
    tpm2_error_str regEmpty 0x40000 = "4:success" := by
  have h := tpm2_error_str_success_shortcircuit regEmpty 0x40000 (by decide)
  rw [h]; rfl

/-- General fallback rendering: when the layer of a code has no
registry entry, the layer is not the device layer 0 (which always
holds its built-in decoder) and the error bits are nonzero (zero
renders success), decode yields the decimal layer id, a colon and the
hexadecimal error bits. -/
theorem tpm2_error_msg_fallback (reg : Registry) (rc : Nat)
    (hreg : reg (layerOf rc) = none) (h0 : layerOf rc ≠ 0)
    (he : tpm2_error_get rc ≠ 0) :
    tpm2_error_str reg rc =
      Nat.repr (layerOf rc) ++ ":" ++ hexStr (tpm2_error_get rc) := by
  unfold tpm2_error_str tpm2_error_msg layerName
  simp [hreg, h0, he]

/-- Claim C4: for every registry and every status code whose layer has
no registered entry (the layer being a non-reserved one, hence not the
device layer 0, and the error bits nonzero so the success
short-circuit does not apply), decode renders the decimal layer id
followed by the error bits in hexadecimal; in particular layer 9 with
error bits 3 renders exactly 9:0x3. -/
theorem tpm2_error_str_generic_fallback (reg : Registry) (rc : Nat)
    (hreg : reg (layerOf rc) = none) (h0 : layerOf rc ≠ 0)
    (he : tpm2_error_get rc ≠ 0) :
    tpm2_error_str reg rc =
      Nat.repr (layerOf rc) ++ ":" ++ hexStr (tpm2_error_get rc) ∧
    (reg 9 = none → tpm2_error_str reg 0x90003 = "9:0x3") := by
  refine ⟨tpm2_error_msg_fallback reg rc hreg h0 he, fun h9 => ?_⟩
  have hr : reg (layerOf 0x90003) = none := by
    rw [show layerOf 0x90003 = 9 from rfl]; exact h9
  have hgen := tpm2_error_msg_fallback reg 0x90003 hr (by decide) (by decide)
  rw [hgen]
  rfl

/-- Witness for claim C4 at the empty registry and status code
0x90003: unregistered layer 9, error bits 3, rendered 9:0x3. -/
theorem tpm2_error_str_generic_fallback_witness :
    tpm2_error_str regEmpty 0x90003 = "9:0x3" :=
  (tpm2_error_str_generic_fallback regEmpty 0x90003 rfl
    (by decide) (by decide)).2 rfl
/-- The success bit of registering a non-NULL handler, as a Boolean
combination of the reserved-layer test and the name-length test. -/
theorem set_handler_fst_eq (reg : Registry) (layer : Nat) (name : String)
    (h : Nat → Option String) :
    (tpm2_error_set_handler reg layer name (some h)).1 =
      (!reservedLayer layer &&
        !(name.length == 0 || decide (name.length > 4))) := by
  by_cases hr : reservedLayer layer <;>
    by_cases hl : (name.length == 0 || decide (name.length > 4)) = true <;>
      simp [tpm2_error_set_handler, hr, hl]

/-- Claim C2: registering a non-NULL handler succeeds exactly when the
layer id is none of the reserved ids 0, 8, 9, 10 and the name length is
1 to 4; a NULL handler always succeeds; and on any failure the registry
is unchanged, so lookup and decode behave as before. -/
theorem tpm2_error_set_handler_contract (reg : Registry) (layer : Nat)
    (name : String) (h : Nat → Option String) :
    ((tpm2_error_set_handler reg layer name (some h)).1 = true ↔
      (¬(layer = 0 ∨ layer = 8 ∨ layer = 9 ∨ layer = 10) ∧
        1 ≤ name.length ∧ name.length ≤ 4)) ∧
    (tpm2_error_set_handler reg layer name none).1 = true ∧
    (∀ hd : Option (Nat → Option String),
      (tpm2_error_set_handler reg layer name hd).1 = false →
        (tpm2_error_set_handler reg layer name hd).2 = reg ∧
        ∀ rc, tpm2_error_str (tpm2_error_set_handler reg layer name hd).2 rc =
          tpm2_error_str reg rc) := by
  refine ⟨?_, rfl, ?_⟩
  · rw [set_handler_fst_eq]
    simp [reservedLayer]
    omega
  · intro hd hf
    have hsnd : (tpm2_error_set_handler reg layer name hd).2 = reg := by
      cases hd with
      | none => simp [tpm2_error_set_handler] at hf
      | some h2 =>
        by_cases hr : reservedLayer layer
        · simp [tpm2_error_set_handler, hr]
        · by_cases hl : (name.length == 0 || decide (name.length > 4)) = true
          · simp [tpm2_error_set_handler, hr, hl]
          · exfalso
            rw [set_handler_fst_eq] at hf
            simp [hr, hl] at hf
    exact ⟨hsnd, fun rc => by rw [hsnd]⟩

/-- A concrete decoder used by witnesses. -/
def hTest : Nat → Option String := fun _ => none

/-- Witness for claim C2: registering on the reserved device layer 0
fails and leaves the registry slot unchanged. -/
theorem tpm2_error_set_handler_contract_witness :
    (tpm2_error_set_handler regEmpty 0 "ab" (some hTest)).2 = regEmpty :=
  ((tpm2_error_set_handler_contract regEmpty 0 "ab" hTest).2.2
    (some hTest) rfl).1

/-- Claim C5: a format-1 device-layer code renders as
kind(index):description where the kind is handle, session or parameter
and the index field renders as unk when 0 and as its numeral
otherwise. -/
theorem tpm2_rc_fmt1_index_rendering (err : Nat)
    (h : err.testBit 7 = true) :
    ∃ kind desc,
      (kind = "handle" ∨ kind = "session" ∨ kind = "parameter") ∧
      tpm2_ehandler err = some (kind ++ "(" ++
        (if fmt1_index err = 0 then "unk" else Nat.repr (fmt1_index err)) ++
        "):" ++ desc) := by
  unfold tpm2_ehandler tpm2_rc_fmt1 fmt1_index
  rw [h]
  by_cases h6 : err.testBit 6
  · refine ⟨"parameter", fmt1_err_strs (err % 2 ^ 6),
      Or.inr (Or.inr rfl), ?_⟩
    simp only [h6, if_true, if_pos]
    congr 1
  · by_cases h11 : err.testBit 11
    · refine ⟨"session", fmt1_err_strs (err % 2 ^ 6),
        Or.inr (Or.inl rfl), ?_⟩
      simp only [h6, h11, if_false, if_true, Bool.false_eq_true]
      congr 1
    · refine ⟨"handle", fmt1_err_strs (err % 2 ^ 6), Or.inl rfl, ?_⟩
      simp only [h6, h11, if_false, Bool.false_eq_true]
      congr 1

/-- Witness for claim C5 at error bits 0x184: format 1, handle kind,
index 1. -/
theorem tpm2_rc_fmt1_index_rendering_witness :
    Nat.testBit 0x184 7 = true ∧
    ∃ kind desc,
      (kind = "handle" ∨ kind = "session" ∨ kind = "parameter") ∧
      tpm2_ehandler 0x184 = some (kind ++ "(" ++
        (if fmt1_index 0x184 = 0 then "unk"
          else Nat.repr (fmt1_index 0x184)) ++ "):" ++ desc) :=
  ⟨by decide, tpm2_rc_fmt1_index_rendering 0x184 (by decide)⟩
/-- A concrete numeric parser used by witnesses: accepts nothing. -/
def parseNone : List Char → Option Nat := fun _ => none

/-- Claim C8: when parsing fails only because the flags filter rejects
the parsed hierarchy (value o with the owner flag absent), the out
parameter has already been overwritten with the parsed value, for every
initial value of the out parameter. -/
theorem tpm2_hierarchy_from_optarg_not_atomic
    (parse : List Char → Option Nat) (h0 : Nat)
    (flags : tpm2_hierarchy_flags) (hf : flags.flags_o = false) :
    tpm2_hierarchy_from_optarg parse ['o'] h0 flags =
      (false, TPM2_RH_OWNER) ∧
    (h0 ≠ TPM2_RH_OWNER →
      (tpm2_hierarchy_from_optarg parse ['o'] h0 flags).2 ≠ h0) := by
  have hres : tpm2_hierarchy_from_optarg parse ['o'] h0 flags =
      (false, TPM2_RH_OWNER) := by
    simp [tpm2_hierarchy_from_optarg, hf, TPM2_RH_OWNER]
  exact ⟨hres, fun hne => by rw [hres]; exact fun hc => hne hc.symm⟩

/-- Witness for claim C8 with a flags value lacking only the owner
flag. -/
theorem tpm2_hierarchy_from_optarg_not_atomic_witness :
    tpm2_hierarchy_from_optarg parseNone ['o'] 0
      ⟨false, true, true, true, true⟩ = (false, TPM2_RH_OWNER) :=
  (tpm2_hierarchy_from_optarg_not_atomic parseNone 0
    ⟨false, true, true, true, true⟩ rfl).1
/-- A non-empty list that is a prefix of a list starts with its head. -/
theorem head_eq_of_isPrefixOf {c d : Char} {v t : List Char}
    (h : (c :: v).isPrefixOf (d :: t) = true) : c = d := by
  simp [List.isPrefixOf] at h
  exact h.1

/-- A list cannot be a prefix of a list with a different head. -/
theorem isPrefixOf_cons_of_ne {c d : Char} (v t : List Char) (h : c ≠ d) :
    (c :: v).isPrefixOf (d :: t) = false := by
  simp [List.isPrefixOf, h]

/-- Claim C9: every non-empty prefix of owner, platform, endorsement,
null or lockout parses as that hierarchy (when its flag permits it),
and every other non-empty value is handed to the numeric handle
parser. -/
theorem tpm2_hierarchy_from_optarg_prefixes
    (parse : List Char → Option Nat) (value : List Char) (h0 : Nat)
    (flags : tpm2_hierarchy_flags) (hne : value ≠ []) :
    (value.isPrefixOf ['o', 'w', 'n', 'e', 'r'] = true →
      flags.flags_o = true →
      tpm2_hierarchy_from_optarg parse value h0 flags =
        (true, TPM2_RH_OWNER)) ∧
    (value.isPrefixOf ['p', 'l', 'a', 't', 'f', 'o', 'r', 'm'] = true →
      flags.flags_p = true →
      tpm2_hierarchy_from_optarg parse value h0 flags =
        (true, TPM2_RH_PLATFORM)) ∧
    (value.isPrefixOf
        ['e', 'n', 'd', 'o', 'r', 's', 'e', 'm', 'e', 'n', 't'] = true →
      flags.flags_e = true →
      tpm2_hierarchy_from_optarg parse value h0 flags =
        (true, TPM2_RH_ENDORSEMENT)) ∧
    (value.isPrefixOf ['n', 'u', 'l', 'l'] = true →
      flags.flags_n = true →
      tpm2_hierarchy_from_optarg parse value h0 flags =
        (true, TPM2_RH_NULL)) ∧
    (value.isPrefixOf ['l', 'o', 'c', 'k', 'o', 'u', 't'] = true →
      flags.flags_l = true →
      tpm2_hierarchy_from_optarg parse value h0 flags =
        (true, TPM2_RH_LOCKOUT)) ∧
    (value.isPrefixOf ['o', 'w', 'n', 'e', 'r'] = false →
      value.isPrefixOf ['p', 'l', 'a', 't', 'f', 'o', 'r', 'm'] = false →
      value.isPrefixOf
        ['e', 'n', 'd', 'o', 'r', 's', 'e', 'm', 'e', 'n', 't'] = false →
      value.isPrefixOf ['n', 'u', 'l', 'l'] = false →
      value.isPrefixOf ['l', 'o', 'c', 'k', 'o', 'u', 't'] = false →
      (parse value = none →
        tpm2_hierarchy_from_optarg parse value h0 allHierarchyFlags =
          (false, 0)) ∧
      (∀ v, parse value = some v →
        tpm2_hierarchy_from_optarg parse value h0 allHierarchyFlags =
          (true, v))) := by
  obtain ⟨c, v, rfl⟩ : ∃ c v, value = c :: v := by
    cases value with
    | nil => exact absurd rfl hne
    | cons c v => exact ⟨c, v, rfl⟩
  refine ⟨?_, ?_, ?_, ?_, ?_, ?_⟩
  · intro hp hfo
    have hc : c = 'o' := head_eq_of_isPrefixOf hp
    subst hc
    have n2 := isPrefixOf_cons_of_ne (c := 'o') (d := 'p') v
      ['l', 'a', 't', 'f', 'o', 'r', 'm'] (by decide)
    have n3 := isPrefixOf_cons_of_ne (c := 'o') (d := 'e') v
      ['n', 'd', 'o', 'r', 's', 'e', 'm', 'e', 'n', 't'] (by decide)
    have n4 := isPrefixOf_cons_of_ne (c := 'o') (d := 'n') v
      ['u', 'l', 'l'] (by decide)
    have n5 := isPrefixOf_cons_of_ne (c := 'o') (d := 'l') v
      ['o', 'c', 'k', 'o', 'u', 't'] (by decide)
    simp [tpm2_hierarchy_from_optarg, hp, n2, n3, n4, n5, hfo,
      TPM2_RH_OWNER, TPM2_RH_PLATFORM, TPM2_RH_ENDORSEMENT, TPM2_RH_NULL,
      TPM2_RH_LOCKOUT]
  · intro hp hfp
    have hc : c = 'p' := head_eq_of_isPrefixOf hp
    subst hc
    have n1 := isPrefixOf_cons_of_ne (c := 'p') (d := 'o') v
      ['w', 'n', 'e', 'r'] (by decide)
    have n3 := isPrefixOf_cons_of_ne (c := 'p') (d := 'e') v
      ['n', 'd', 'o', 'r', 's', 'e', 'm', 'e', 'n', 't'] (by decide)
    have n4 := isPrefixOf_cons_of_ne (c := 'p') (d := 'n') v
      ['u', 'l', 'l'] (by decide)
    have n5 := isPrefixOf_cons_of_ne (c := 'p') (d := 'l') v
      ['o', 'c', 'k', 'o', 'u', 't'] (by decide)
    simp [tpm2_hierarchy_from_optarg, hp, n1, n3, n4, n5, hfp,
      TPM2_RH_OWNER, TPM2_RH_PLATFORM, TPM2_RH_ENDORSEMENT, TPM2_RH_NULL,
      TPM2_RH_LOCKOUT]
  · intro hp hfe
    have hc : c = 'e' := head_eq_of_isPrefixOf hp
    subst hc
    have n1 := isPrefixOf_cons_of_ne (c := 'e') (d := 'o') v
      ['w', 'n', 'e', 'r'] (by decide)
    have n2 := isPrefixOf_cons_of_ne (c := 'e') (d := 'p') v
      ['l', 'a', 't', 'f', 'o', 'r', 'm'] (by decide)
    have n4 := isPrefixOf_cons_of_ne (c := 'e') (d := 'n') v
      ['u', 'l', 'l'] (by decide)
    have n5 := isPrefixOf_cons_of_ne (c := 'e') (d := 'l') v
      ['o', 'c', 'k', 'o', 'u', 't'] (by decide)
    simp [tpm2_hierarchy_from_optarg, hp, n1, n2, n4, n5, hfe,
      TPM2_RH_OWNER, TPM2_RH_PLATFORM, TPM2_RH_ENDORSEMENT, TPM2_RH_NULL,
      TPM2_RH_LOCKOUT]
  · intro hp hfn
    have hc : c = 'n' := head_eq_of_isPrefixOf hp
    subst hc
    have n1 := isPrefixOf_cons_of_ne (c := 'n') (d := 'o') v
      ['w', 'n', 'e', 'r'] (by decide)
    have n2 := isPrefixOf_cons_of_ne (c := 'n') (d := 'p') v
      ['l', 'a', 't', 'f', 'o', 'r', 'm'] (by decide)
    have n3 := isPrefixOf_cons_of_ne (c := 'n') (d := 'e') v
      ['n', 'd', 'o', 'r', 's', 'e', 'm', 'e', 'n', 't'] (by decide)
    have n5 := isPrefixOf_cons_of_ne (c := 'n') (d := 'l') v
      ['o', 'c', 'k', 'o', 'u', 't'] (by decide)
    simp [tpm2_hierarchy_from_optarg, hp, n1, n2, n3, n5, hfn,
      TPM2_RH_OWNER, TPM2_RH_PLATFORM, TPM2_RH_ENDORSEMENT, TPM2_RH_NULL,
      TPM2_RH_LOCKOUT]
  · intro hp hfl
    have hc : c = 'l' := head_eq_of_isPrefixOf hp
    subst hc
    have n1 := isPrefixOf_cons_of_ne (c := 'l') (d := 'o') v
      ['w', 'n', 'e', 'r'] (by decide)
    have n2 := isPrefixOf_cons_of_ne (c := 'l') (d := 'p') v
      ['l', 'a', 't', 'f', 'o', 'r', 'm'] (by decide)
    have n3 := isPrefixOf_cons_of_ne (c := 'l') (d := 'e') v
      ['n', 'd', 'o', 'r', 's', 'e', 'm', 'e', 'n', 't'] (by decide)
    have n4 := isPrefixOf_cons_of_ne (c := 'l') (d := 'n') v
      ['u', 'l', 'l'] (by decide)
    simp [tpm2_hierarchy_from_optarg, hp, n1, n2, n3, n4, hfl,
      TPM2_RH_OWNER, TPM2_RH_PLATFORM, TPM2_RH_ENDORSEMENT, TPM2_RH_NULL,
      TPM2_RH_LOCKOUT]
  · intro m1 m2 m3 m4 m5
    constructor
    · intro hnone
      simp [tpm2_hierarchy_from_optarg, m1, m2, m3, m4, m5, hnone]
    · intro w hw
      simp [tpm2_hierarchy_from_optarg, m1, m2, m3, m4, m5, hw,
        allHierarchyFlags]

/-- Witness for claim C9 on the value own, a prefix of owner. -/
theorem tpm2_hierarchy_from_optarg_prefixes_witness :
    tpm2_hierarchy_from_optarg parseNone ['o', 'w', 'n'] 0
      allHierarchyFlags = (true, TPM2_RH_OWNER) :=
  (tpm2_hierarchy_from_optarg_prefixes parseNone ['o', 'w', 'n'] 0
    allHierarchyFlags (by decide)).1 (by decide) rfl
